import Mathlib

/-
Shallow embedding of the AlphaAgent factor-coder evolving strategies
(alphaagent/components/coder/factor_coder/evolving_strategy.py) and of the
workflow loop (alphaagent/components/workflow/alphaagent_loop.py).

Conventions of the embedding:
* Python functions become Lean functions; a Python function that can raise
  returns Except PyErr / Except LoopErr.
* The external chat oracle (APIBackend) is a scripted environment: the k-th
  build_messages_and_create_chat_completion call of one implement_one_task
  invocation returns a scripted response, and the token estimator
  build_messages_and_calculate_token is an abstract function of the prompt
  parameters.  Call counters are threaded explicitly.
* Jinja template rendering of prompts is external text generation; we keep the
  exact parameter sets that the source passes to each template, as structures.
-/

namespace AlphaAgent

/-- FactorTask (factor_coder/factor.py): a factor synthesis task.  The four
fields are the attributes that evolving_strategy.py reads: factor_name,
factor_expression, get_task_information() and get_task_description(). -/
structure FactorTask where
  factorName : String
  factorExpression : String
  taskInformation : String
  taskDescription : String
deriving DecidableEq, Repr, Inhabited

/-- Modelled from the spec: the fixed code template (template.jinjia2, whose
text is not under src/) is rendered deterministically from the expression and
the factor name: "deterministically render a code artifact directly from the
task structured parameters via a fixed template". -/
def codeTemplateRender (expression factorName : String) : String :=
  "factor_name = \"" ++ factorName ++ "\"\nexpr = \"" ++ expression ++ "\"\n"

/-- Knowledge entry about one past implementation attempt, as consumed by
evolving_strategy.py: .implementation.code, .feedback and
.target_task.get_task_description(). -/
structure ImplKnowledge where
  implementationCode : String
  feedback : String
  targetTaskDescription : String
deriving DecidableEq, Repr, Inhabited

/-- Modelled from the spec: get_implementation_and_feedback_str of a knowledge
entry (its class is not under src/) is a textual digest of the failed
implementation and its feedback; only its identity matters here, since it is
consumed by the abstract token estimator. -/
def ImplKnowledge.implementation_and_feedback_str (k : ImplKnowledge) : String :=
  k.implementationCode ++ "\n" ++ k.feedback

/-- The value of task_to_similar_error_successful_knowledge for one task: a
Python dict keyed by error type, each key mapping to a list of
(error_implementation, success_implementation) pairs.  We model the dict by
its association list; len(d) is the length of that list. -/
abbrev ErrBuckets := List (String × List (ImplKnowledge × ImplKnowledge))

/-- CoSTEERQueriedKnowledge / CoSTEERQueriedKnowledgeV2
(CoSTEER/knowledge_management.py, not under src/; contract per spec section
4.1: the query returns empty collections, never fails, for unseen identities,
so the per-task maps are total functions).  isV2 is the Python isinstance
check for CoSTEERQueriedKnowledgeV2. -/
structure QueriedKnowledge where
  isV2 : Bool
  task_to_similar_task_successful_knowledge : String → List ImplKnowledge
  task_to_similar_error_successful_knowledge : String → ErrBuckets
  task_to_former_failed_traces : String → List ImplKnowledge × String

/-- Scenario object: get_scenario_all_desc(target_task, ...) as read by the
prompt builders. -/
structure Scenario where
  get_scenario_all_desc : FactorTask → String

/-- Settings read by implement_one_task: FACTOR_COSTEER_SETTINGS.v2_error_summary
and LLM_SETTINGS.chat_token_limit. -/
structure Config where
  v2_error_summary : Bool
  chat_token_limit : Nat
deriving DecidableEq, Repr

/-- Python exceptions that can escape the modelled code paths. -/
inductive PyErr
  | typeError
  | keyError
  | attributeError
deriving DecidableEq, Repr

/-- One response of the chat oracle, as seen after json.loads: `malformed` is a
response on which json.loads raises JSONDecodeError, `obj` a successfully
decoded JSON object (its string-valued fields), `text` free-form text (as
returned by a json_mode=False call). -/
inductive ChatResp
  | malformed
  | obj (fields : List (String × String))
  | text (s : String)
deriving DecidableEq, Repr

/-- Raw text of a response, as consumed by a json_mode=False call site. -/
def ChatResp.rawText : ChatResp → String
  | .text s => s
  | .malformed => ""
  | .obj _ => ""

/-- Parameters of evolving_strategy_factor_implementation_v1_system in
prompts_alphaagent.yaml, as rendered by FactorParsingStrategy (the commented
out parameters of the source are omitted like the source omits them). -/
structure ParsingSystemPrompt where
  scenario : String
deriving DecidableEq, Repr

/-- Parameters of evolving_strategy_factor_implementation_v2_user in
prompts_alphaagent.yaml, as rendered by FactorParsingStrategy. -/
structure ParsingUserPrompt where
  factor_information_str : String
  queried_similar_error_knowledge : ErrBuckets
  former_expression : String
  former_feedback : String
  error_summary_critics : Option String
  similar_successful_factor_description : Option String
  similar_successful_expression : Option String
  latest_attempt_to_latest_successful_execution : String
deriving DecidableEq, Repr

/-- Parameters of evolving_strategy_factor_implementation_v1_system in
prompts.yaml, as rendered by FactorMultiProcessEvolvingStrategy (rendered once,
before the trimming loop, so it carries the untrimmed former-failed list). -/
structure MPSystemPrompt where
  scenario : String
  queried_former_failed_knowledge : List ImplKnowledge
deriving DecidableEq, Repr

/-- Parameters of evolving_strategy_factor_implementation_v2_user in
prompts.yaml, as rendered by FactorMultiProcessEvolvingStrategy. -/
structure MPUserPrompt where
  factor_information_str : String
  queried_similar_error_knowledge : ErrBuckets
  error_summary_critics : Option String
  similar_successful_factor_description : Option String
  similar_successful_expression : Option String
  latest_attempt_to_latest_successful_execution : String
deriving DecidableEq, Repr

/-- Parameters of evolving_strategy_error_summary_v2_system. -/
structure ErrorSummarySystemPrompt where
  scenario : String
  factor_information_str : String
  code_and_feedback : String
deriving DecidableEq, Repr

/-- Parameters of evolving_strategy_error_summary_v2_user. -/
structure ErrorSummaryUserPrompt where
  queried_similar_error_knowledge : ErrBuckets
deriving DecidableEq, Repr

/-- The external oracle environment of one implement_one_task invocation:
chat k is the response of the k-th build_messages_and_create_chat_completion
call (0-based, shared counter across error summaries and decode attempts), and
the tokens_* functions are build_messages_and_calculate_token applied to the
rendered prompts of each shape. -/
structure Backend where
  chat : Nat → ChatResp
  tokens_parsing : ParsingSystemPrompt → ParsingUserPrompt → Nat
  tokens_mp : MPSystemPrompt → MPUserPrompt → Nat
  tokens_error_summary : ErrorSummarySystemPrompt → ErrorSummaryUserPrompt → Nat

/-- Single-quote character (codepoint 39), written via Char.ofNat to keep the
source free of quote-literal noise. -/
def squote : Char := Char.ofNat 39

/-- Python regex whitespace class for ASCII: space, tab, newline, carriage
return, form feed, vertical tab. -/
def isPySpace (c : Char) : Bool :=
  c = ' ' || c = '\t' || c = '\n' || c = '\r' || c = Char.ofNat 12 || c = Char.ofNat 11

/-- Consume a maximal run of regex whitespace. -/
def dropPySpaces : List Char → List Char
  | c :: cs => if isPySpace c then dropPySpaces cs else c :: cs
  | [] => []

/-- Try to match the regex from FactorParsingStrategy.extract_expr at the head
of the character list: literal expr, optional spaces, =, optional spaces, a
quote (double or single), a maximal run of non-quote characters (the capture),
then a closing quote (either kind, like the character class of the pattern). -/
def matchExprAt (cs : List Char) : Option String :=
  match cs with
  | 'e' :: 'x' :: 'p' :: 'r' :: rest =>
    match dropPySpaces rest with
    | '=' :: rest2 =>
      match dropPySpaces rest2 with
      | q :: rest3 =>
        if q = '"' || q = squote then
          let body := rest3.takeWhile (fun c => !(c = '"' || c = squote))
          match rest3.dropWhile (fun c => !(c = '"' || c = squote)) with
          | q2 :: _ => if q2 = '"' || q2 = squote then some (String.mk body) else none
          | [] => none
        else none
      | [] => none
    | _ => none
  | _ => none

/-- Leftmost search of the extract_expr pattern (re.search semantics: the
earliest start position at which the whole pattern matches wins). -/
def searchExpr : List Char → Option String
  | [] => none
  | c :: cs =>
    match matchExprAt (c :: cs) with
    | some s => some s
    | none => searchExpr cs

/-- FactorParsingStrategy.extract_expr: extract the first expr = "..." (or
single-quoted) assignment from a code string; empty string when absent.
The same helper is invoked (via self) by
FactorMultiProcessEvolvingStrategy.implement_one_task; the method resolves
through the class hierarchy outside src/, with this body. -/
def extract_expr (code_str : String) : String :=
  (searchExpr code_str.data).getD ""

/-- The mutable context of the prompt-size trimming loop:
queried_former_failed_knowledge_to_render,
queried_similar_successful_knowledge_to_render and
queried_similar_error_knowledge_to_render (the last one is a Python dict). -/
structure TrimState where
  ff : List ImplKnowledge
  succ : List ImplKnowledge
  err : ErrBuckets
deriving DecidableEq, Repr

/-- One shrink step of the trimming loop, taken when the token estimate is not
under the limit.  Branches exactly as in the source:
ff[1:] when more than one former-failed entry remains; else succ[:-1] when
there are more successful than error entries; else err[:-1] when error entries
remain — but queried_similar_error_knowledge_to_render is a dict
(see the source comment: A dict of error_type to entries), and slicing a dict
raises TypeError (unhashable type: slice) in Python; else nothing shrinks and
the state is returned unchanged. -/
def trim_drop_step (st : TrimState) : Except PyErr TrimState :=
  if st.ff.length > 1 then .ok ⟨st.ff.drop 1, st.succ, st.err⟩
  else if st.succ.length > st.err.length then .ok ⟨st.ff, st.succ.dropLast, st.err⟩
  else if st.err.length > 0 then .error .typeError
  else .ok st

/-- The inner bounded loop of error_summary (for _ in range(10)): rebuild the
error-summary user prompt from its local copy of the error knowledge; break
when the token estimate is under the limit; else shrink that copy with [:-1] —
again dict slicing, which raises TypeError when the dict is non-empty.  With an
empty dict no branch applies and the loop spins until the range is exhausted. -/
def error_summary_loop (tok : ErrBuckets → Nat) (limit : Nat) :
    Nat → ErrBuckets → Except PyErr ErrBuckets
  | 0, err => .ok err
  | fuel + 1, err =>
    if tok err < limit then .ok err
    else if err.length > 0 then .error .typeError
    else
      match fuel with
      | 0 => .ok err
      | f + 1 => error_summary_loop tok limit (f + 1) err

/-- FactorMultiProcessEvolvingStrategy.error_summary (also reached as
self.error_summary from FactorParsingStrategy.implement_one_task): renders the
error-summary system prompt from the scenario, the task information and the
last former-failed entry, runs the inner trimming loop over the similar-error
knowledge, then makes one free-form chat completion and returns its text.
The threaded Nat is the chat-call counter. -/
def error_summary (be : Backend) (cfg : Config) (scen : Scenario)
    (target_task : FactorTask) (ff : List ImplKnowledge) (err : ErrBuckets)
    (calls : Nat) : Except PyErr (String × Nat) :=
  let sys : ErrorSummarySystemPrompt :=
    ⟨scen.get_scenario_all_desc target_task, target_task.taskInformation,
     (ff.getLastD default).implementation_and_feedback_str⟩
  match error_summary_loop (fun e => be.tokens_error_summary sys ⟨e⟩)
      cfg.chat_token_limit 10 err with
  | .error e => .error e
  | .ok _ => .ok ((be.chat calls).rawText, calls + 1)

/-- The per-round error-summary decision shared verbatim by both strategies:
when the knowledge is the V2 variant, v2_error_summary is enabled and both the
similar-error and the former-failed collections are non-empty, call
error_summary (one chat completion); otherwise error_summary_critics is None. -/
def summarize_step (be : Backend) (cfg : Config) (scen : Scenario) (isV2 : Bool)
    (target_task : FactorTask) (st : TrimState) (calls : Nat) :
    Except PyErr (Option String × Nat) :=
  if isV2 && cfg.v2_error_summary && st.err.length != 0 && st.ff.length != 0 then
    match error_summary be cfg scen target_task st.ff st.err calls with
    | .error e => .error e
    | .ok (s, calls1) => .ok (some s, calls1)
  else .ok (none, calls)

/-- The bounded prompt-shrinking loop (for _ in range(10)) shared structurally
by FactorMultiProcessEvolvingStrategy.implement_one_task and
FactorParsingStrategy.implement_one_task, abstracted over the user-prompt shape
pi.  Each round: decide the error summary (summarize), build the user prompt,
break when the token estimate is under the limit, else take one
trim_drop_step.  Returns the last built prompt, the final context state, the
chat-call counter and the number of rounds executed (for stating the round
bound; the source loop body is otherwise unchanged).  Entered with fuel 10;
the fuel 0 equation is never reached from that entry. -/
def prompt_trim_loop {pi : Type} (tok : pi → Nat) (limit : Nat)
    (build : TrimState → Option String → pi)
    (summarize : TrimState → Nat → Except PyErr (Option String × Nat)) :
    Nat → TrimState → Nat → Except PyErr (pi × TrimState × Nat × Nat)
  | 0, st, calls => .ok (build st none, st, calls, 0)
  | fuel + 1, st, calls =>
    match summarize st calls with
    | .error e => .error e
    | .ok (critics, calls1) =>
      let p := build st critics
      if tok p < limit then .ok (p, st, calls1, 1)
      else
        match trim_drop_step st with
        | .error e => .error e
        | .ok st1 =>
          match fuel with
          | 0 => .ok (p, st1, calls1, 1)
          | f + 1 =>
            match prompt_trim_loop tok limit build summarize (f + 1) st1 calls1 with
            | .error e => .error e
            | .ok (p2, st2, calls2, r) => .ok (p2, st2, calls2, r + 1)

/-- The user prompt built each round by FactorParsingStrategy: the target task
description, the (possibly trimmed) error knowledge, the expression and
feedback extracted from the LAST former-failed entry, the optional error
summary, the LAST similar-successful entry (description and extracted
expression) when present, and the latest-attempt record. -/
def parsing_build_user_prompt (target_task : FactorTask) (latest : String)
    (st : TrimState) (critics : Option String) : ParsingUserPrompt :=
  { factor_information_str := target_task.taskDescription
    queried_similar_error_knowledge := st.err
    former_expression := extract_expr (st.ff.getLastD default).implementationCode
    former_feedback := (st.ff.getLastD default).feedback
    error_summary_critics := critics
    similar_successful_factor_description :=
      (st.succ.getLast?).map (fun k => k.targetTaskDescription)
    similar_successful_expression :=
      (st.succ.getLast?).map (fun k => extract_expr k.implementationCode)
    latest_attempt_to_latest_successful_execution := latest }

/-- The user prompt built each round by FactorMultiProcessEvolvingStrategy:
like the parsing one but without the former-expression fields and reading the
FIRST similar-successful entry (index 0). -/
def mp_build_user_prompt (target_task : FactorTask) (latest : String)
    (st : TrimState) (critics : Option String) : MPUserPrompt :=
  { factor_information_str := target_task.taskDescription
    queried_similar_error_knowledge := st.err
    error_summary_critics := critics
    similar_successful_factor_description :=
      (st.succ.head?).map (fun k => k.targetTaskDescription)
    similar_successful_expression :=
      (st.succ.head?).map (fun k => extract_expr k.implementationCode)
    latest_attempt_to_latest_successful_execution := latest }

/-- The bounded decode-retry loop of FactorParsingStrategy.implement_one_task
(for _ in range(10)): each attempt is one json_mode chat completion;
JSONDecodeError (a malformed response) is caught and retried; a decoded object
without the expr key raises KeyError (uncaught); on success the code template
is re-rendered with the new expression and the task factor name.  When all
attempts fail, control falls off the end of the Python function, which
therefore returns None — there is no return-empty fallback in this class. -/
def parsing_decode_loop (be : Backend) (factorName : String) :
    Nat → Nat → Except PyErr (Option String × Nat)
  | 0, calls => .ok (none, calls)
  | fuel + 1, calls =>
    match be.chat calls with
    | .malformed => parsing_decode_loop be factorName fuel (calls + 1)
    | .text _ => parsing_decode_loop be factorName fuel (calls + 1)
    | .obj fields =>
      match fields.lookup "expr" with
      | none => .error .keyError
      | some e => .ok (some (codeTemplateRender e factorName), calls + 1)

/-- The decode-retry loop of FactorMultiProcessEvolvingStrategy
.implement_one_task: reads the code field and returns it directly; its
for-else clause returns the empty string when all ten attempts raise
JSONDecodeError. -/
def mp_decode_loop (be : Backend) : Nat → Nat → Except PyErr (Option String × Nat)
  | 0, calls => .ok (some "", calls)
  | fuel + 1, calls =>
    match be.chat calls with
    | .malformed => mp_decode_loop be fuel (calls + 1)
    | .text _ => mp_decode_loop be fuel (calls + 1)
    | .obj fields =>
      match fields.lookup "code" with
      | none => .error .keyError
      | some c => .ok (some c, calls + 1)

/-- Former-failed knowledge of a task as read by implement_one_task:
queried_knowledge.task_to_former_failed_traces[info][0] when the knowledge
object is present, else the empty list. -/
def former_failed_of (queried_knowledge : Option QueriedKnowledge)
    (target_task : FactorTask) : List ImplKnowledge :=
  match queried_knowledge with
  | none => []
  | some qk => (qk.task_to_former_failed_traces target_task.taskInformation).1

namespace FactorParsingStrategy

/-- FactorParsingStrategy.implement_one_task.  Fast path: with no former-failed
knowledge (including queried_knowledge None) the code template is rendered
directly from the task factor_expression and factor_name, with zero chat
calls.  Repair path: build the system prompt from the scenario, run the
prompt-trimming loop, then the decode-retry loop.  The result pairs the Python
return value (None modelled as none) with the number of chat completions
made. -/
def implement_one_task (be : Backend) (cfg : Config) (scen : Scenario)
    (target_task : FactorTask) (queried_knowledge : Option QueriedKnowledge) :
    Except PyErr (Option String × Nat) :=
  match queried_knowledge with
  | none =>
    .ok (some (codeTemplateRender target_task.factorExpression target_task.factorName), 0)
  | some qk =>
    let info := target_task.taskInformation
    let succ := qk.task_to_similar_task_successful_knowledge info
    let err : ErrBuckets :=
      if qk.isV2 then qk.task_to_similar_error_successful_knowledge info else []
    let ff := (qk.task_to_former_failed_traces info).1
    if ff.length = 0 then
      .ok (some (codeTemplateRender target_task.factorExpression target_task.factorName), 0)
    else
      let latest := (qk.task_to_former_failed_traces info).2
      let sys : ParsingSystemPrompt := ⟨scen.get_scenario_all_desc target_task⟩
      match prompt_trim_loop (be.tokens_parsing sys) cfg.chat_token_limit
          (parsing_build_user_prompt target_task latest)
          (summarize_step be cfg scen qk.isV2 target_task)
          10 ⟨ff, succ, err⟩ 0 with
      | .error e => .error e
      | .ok (_, _, calls, _) => parsing_decode_loop be target_task.factorName 10 calls

end FactorParsingStrategy

namespace FactorMultiProcessEvolvingStrategy

/-- FactorMultiProcessEvolvingStrategy.implement_one_task.  There is no
template fast path: the latest-attempt record is read from queried_knowledge
unconditionally, so a None knowledge object raises AttributeError; otherwise
the prompt-trimming loop runs (system prompt carries the untrimmed
former-failed list) followed by the decode-retry loop that falls back to the
empty string. -/
def implement_one_task (be : Backend) (cfg : Config) (scen : Scenario)
    (target_task : FactorTask) (queried_knowledge : Option QueriedKnowledge) :
    Except PyErr (Option String × Nat) :=
  match queried_knowledge with
  | none => .error .attributeError
  | some qk =>
    let info := target_task.taskInformation
    let succ := qk.task_to_similar_task_successful_knowledge info
    let err : ErrBuckets :=
      if qk.isV2 then qk.task_to_similar_error_successful_knowledge info else []
    let ff := (qk.task_to_former_failed_traces info).1
    let latest := (qk.task_to_former_failed_traces info).2
    let sys : MPSystemPrompt := ⟨scen.get_scenario_all_desc target_task, ff⟩
    match prompt_trim_loop (be.tokens_mp sys) cfg.chat_token_limit
        (mp_build_user_prompt target_task latest)
        (summarize_step be cfg scen qk.isV2 target_task)
        10 ⟨ff, succ, err⟩ 0 with
    | .error e => .error e
    | .ok (_, _, calls, _) => mp_decode_loop be 10 calls

end FactorMultiProcessEvolvingStrategy

/-- Modelled from the spec: FactorFBWorkspace (factor_coder/factor.py is not
under src/) — an exclusively-owned, mutable container for the generated
artifact of one task, holding its target task and the file-name-to-source map
written by inject_code. -/
structure FactorFBWorkspace where
  target_task : FactorTask
  code_dict : List (String × String)
deriving DecidableEq, Repr

/-- Insert or overwrite one named file in a file map. -/
def upsertFile : List (String × String) → String → String → List (String × String)
  | [], name, code => [(name, code)]
  | (n, c) :: rest, name, code =>
    if n = name then (n, code) :: rest else (n, c) :: upsertFile rest name code

/-- Modelled from the spec: inject_code writes one named source file into the
workspace, overwriting it on re-synthesis. -/
def FactorFBWorkspace.inject_code (ws : FactorFBWorkspace) (name code : String) :
    FactorFBWorkspace :=
  ⟨ws.target_task, upsertFile ws.code_dict name code⟩

/-- EvolvingItem as read by the strategies: the ordered tasks, the parallel
nullable workspace slots, and the corresponding_selection attribute written by
evolve. -/
structure EvolvingItem where
  sub_tasks : List FactorTask
  sub_workspace_list : List (Option FactorFBWorkspace)
  corresponding_selection : List Nat
deriving DecidableEq, Repr

/-- assign_code_list_to_evo, textually identical in
FactorMultiProcessEvolvingStrategy, FactorParsingStrategy and
FactorRunningStrategy: for each index below len(sub_tasks), a None entry of
code_list is skipped (the prior workspace slot is left as it is); otherwise the
slot gets a fresh FactorFBWorkspace if it was None, and the code is injected as
factor.py.  The imperative per-index loop is rendered as a per-index map (each
slot is read and written only at its own index). -/
def assign_code_list_to_evo (code_list : List (Option String)) (evo : EvolvingItem) :
    EvolvingItem :=
  { evo with
    sub_workspace_list :=
      (List.range evo.sub_tasks.length).map (fun index =>
        match code_list.getD index none with
        | none => evo.sub_workspace_list.getD index none
        | some code =>
          let ws :=
            match evo.sub_workspace_list.getD index none with
            | none => FactorFBWorkspace.mk (evo.sub_tasks.getD index default) []
            | some w => w
          some (ws.inject_code "factor.py" code)) }

/-- Modelled from the spec: core/utils.multiprocessing_wrapper is not under
src/.  Per spec section 5, the worker pool evaluates the submitted thunks
concurrently and "results are merged back ... in task-index order regardless
of completion order": order lists the submission indices in completion order,
and the wrapper returns the results in submission order. -/
def multiprocessing_wrapper {α : Type} [Inhabited α]
    (fs : List (Unit → α)) (order : List Nat) : List α :=
  let completed : List (Nat × α) :=
    order.filterMap (fun i => (fs[i]?).map (fun f => (i, f ())))
  (List.range fs.length).map (fun j => ((completed.lookup j).getD default))

namespace FactorRunningStrategy

/-- FactorRunningStrategy.implement_one_task: unconditionally render the code
template from the task factor_expression and factor_name.  The
queried_knowledge argument is never read, and the definition takes no Backend,
so no chat call can occur. -/
def implement_one_task (target_task : FactorTask)
    (queried_knowledge : Option QueriedKnowledge) : String :=
  let _ := queried_knowledge
  codeTemplateRender target_task.factorExpression target_task.factorName

/-- FactorRunningStrategy.evolve: select every task index, dispatch
implement_one_task for each through the worker pool (order is the completion
order of the workers), scatter result[index] into code_list[target_index]
exactly as the enumerate loop does, assign the code list into the workspaces
and record corresponding_selection. -/
def evolve (evo : EvolvingItem) (queried_knowledge : Option QueriedKnowledge)
    (order : List Nat) : EvolvingItem :=
  let to_be_finished_task_index := List.range evo.sub_tasks.length
  let result := multiprocessing_wrapper
    (to_be_finished_task_index.map (fun target_index => fun _ =>
      implement_one_task (evo.sub_tasks.getD target_index default) queried_knowledge))
    order
  let code_list := (to_be_finished_task_index.zip result).foldl
    (fun acc (tr : Nat × String) => acc.set tr.1 (some tr.2))
    (List.replicate evo.sub_tasks.length (none : Option String))
  let evo1 := assign_code_list_to_evo code_list evo
  { evo1 with corresponding_selection := to_be_finished_task_index }

end FactorRunningStrategy

/-- Python exception classes that reach the workflow loop. -/
inductive ErrClass
  | factorEmptyError
  | coderError
  | genericException
deriving DecidableEq, Repr

/-- A raised error: its class and its message. -/
structure LoopErr where
  cls : ErrClass
  msg : String
deriving DecidableEq, Repr

/-- Outcome of one step under the loop error policy. -/
inductive StepOutcome (α : Type)
  | ok (a : α)
  | skipIteration (e : LoopErr)
  | abortRun (e : LoopErr)
deriving DecidableEq, Repr

/-- Modelled from the spec: the per-step error policy of LoopBase
(utils/workflow.py is not under src/) — "a step whose error class is declared
skippable for this loop variant causes that iteration to abort (not the whole
run) and the loop advances to the next iteration". -/
def loop_step_outcome {α : Type} (skip : List ErrClass) (r : Except LoopErr α) :
    StepOutcome α :=
  match r with
  | .ok a => .ok a
  | .error e => if e.cls ∈ skip then .skipIteration e else .abortRun e

/-- The stop_event_check decorator: STOP_EVENT is a module-global threading
event, None until a loop installs one; some b models an installed event whose
is_set() returns b.  When set, the wrapped step raises
Exception("Operation stopped due to stop_event flag.") instead of running its
body. -/
def stop_event_check {α β : Type} (stop_event : Option Bool)
    (func : α → Except LoopErr β) (x : α) : Except LoopErr β :=
  match stop_event with
  | some true => .error ⟨.genericException, "Operation stopped due to stop_event flag."⟩
  | _ => func x

namespace AlphaAgentLoop

/-- AlphaAgentLoop.skip_loop_error: the error classes declared skippable for
this loop variant. -/
def skip_loop_error : List ErrClass := [.factorEmptyError]

/-- Body of AlphaAgentLoop.factor_backtest: the runner develop result; when the
external execution engine signals no result (None), raise
FactorEmptyError("Factor extraction failed."). -/
def factor_backtest_body {α : Type} (runner_result : Option α) : Except LoopErr α :=
  match runner_result with
  | none => .error ⟨.factorEmptyError, "Factor extraction failed."⟩
  | some exp => .ok exp

/-- AlphaAgentLoop.factor_propose, as decorated by @stop_event_check; the body
(the hypothesis-generator call) is abstract. -/
def factor_propose {α β : Type} (stop_event : Option Bool)
    (body : α → Except LoopErr β) (prev_out : α) : Except LoopErr β :=
  stop_event_check stop_event body prev_out

/-- AlphaAgentLoop.factor_construct, as decorated by @stop_event_check. -/
def factor_construct {α β : Type} (stop_event : Option Bool)
    (body : α → Except LoopErr β) (prev_out : α) : Except LoopErr β :=
  stop_event_check stop_event body prev_out

/-- AlphaAgentLoop.factor_calculate, as decorated by @stop_event_check. -/
def factor_calculate {α β : Type} (stop_event : Option Bool)
    (body : α → Except LoopErr β) (prev_out : α) : Except LoopErr β :=
  stop_event_check stop_event body prev_out

/-- AlphaAgentLoop.factor_backtest, as decorated by @stop_event_check, with its
concrete body. -/
def factor_backtest {α : Type} (stop_event : Option Bool)
    (runner_result : Option α) : Except LoopErr α :=
  stop_event_check stop_event factor_backtest_body runner_result

/-- AlphaAgentLoop.feedback, as decorated by @stop_event_check. -/
def feedback {α β : Type} (stop_event : Option Bool)
    (body : α → Except LoopErr β) (prev_out : α) : Except LoopErr β :=
  stop_event_check stop_event body prev_out

end AlphaAgentLoop

/-- The error raised by stop_event_check when the flag is observed set. -/
def stopped_error : LoopErr :=
  ⟨.genericException, "Operation stopped due to stop_event flag."⟩

/-- Helper selecting the existing workspace of slot i, or the fresh workspace
that assign_code_list_to_evo builds when the slot is None. -/
def workspace_or_new (evo : EvolvingItem) (i : Nat) : FactorFBWorkspace :=
  match evo.sub_workspace_list.getD i none with
  | none => ⟨evo.sub_tasks.getD i default, []⟩
  | some w => w

/-- Fixture backend: every chat response is malformed and every token estimate
is 0 (always under any positive limit). -/
def cexBackend : Backend :=
  ⟨fun _ => .malformed, fun _ _ => 0, fun _ _ => 0, fun _ _ => 0⟩

/-- Fixture backend for the over-budget scenario: every token estimate is 5,
never under the fixture limit of 1. -/
def overBudgetBackend : Backend :=
  ⟨fun _ => .malformed, fun _ _ => 5, fun _ _ => 5, fun _ _ => 5⟩

/-- Fixture scenario. -/
def cexScenario : Scenario := ⟨fun _ => "qlib factor scenario"⟩

/-- Fixture target task. -/
def cexTask : FactorTask :=
  ⟨"MOM20", "Rank(Delta(close, 20))", "info: MOM20", "desc: MOM20"⟩

/-- Fixture former-failed knowledge entry. -/
def cexFailedEntry : ImplKnowledge :=
  ⟨"expr = \"Delta(close 20)\"", "SyntaxError: invalid expression", "desc: MOM20"⟩

/-- Fixture successful knowledge entry. -/
def cexSuccessEntry : ImplKnowledge :=
  ⟨"expr = \"Delta(close, 20)\"", "ok", "desc: MOM20v2"⟩

/-- Fixture queried knowledge (basic variant) with exactly one former-failed
trace for every task identity. -/
def cexKnowledge : QueriedKnowledge :=
  ⟨false, fun _ => [], fun _ => [], fun _ => ([cexFailedEntry], "latest attempt")⟩

/-- Fixture queried knowledge (V2 variant) with one former-failed trace, no
successful entries and one non-empty similar-error bucket. -/
def c4Knowledge : QueriedKnowledge :=
  ⟨true, fun _ => [],
   fun _ => [("SyntaxError", [(cexFailedEntry, cexSuccessEntry)])],
   fun _ => ([cexFailedEntry], "latest attempt")⟩

/-- Fixture queried knowledge with no former-failed trace for any task. -/
def c1Knowledge : QueriedKnowledge :=
  ⟨true, fun _ => [cexSuccessEntry], fun _ => [], fun _ => ([], "")⟩

/-- Fixture config: error summaries disabled, token limit 1. -/
def cexConfig : Config := ⟨false, 1⟩

/-- Fixture evolving item with one task and an empty workspace slot. -/
def c3Evo : EvolvingItem := ⟨[cexTask], [none], []⟩

/-- Second fixture task. -/
def c6Task2 : FactorTask := ⟨"VOL5", "Std(ret, 5)", "info: VOL5", "desc: VOL5"⟩

/-- Fixture workspace already holding an older artifact for c6Task2. -/
def c6Ws2 : FactorFBWorkspace := ⟨c6Task2, [("factor.py", "old code")]⟩

/-- Fixture evolving item with two tasks, one empty and one occupied slot. -/
def c6Evo : EvolvingItem := ⟨[cexTask, c6Task2], [none, some c6Ws2], []⟩

/-- The user prompt produced by the trimming-loop witness instantiation. -/
def c5Prompt : ParsingUserPrompt :=
  parsing_build_user_prompt cexTask "" ⟨[], [], []⟩ none

/-- A successful trim_drop_step never grows any of the three context
collections. -/
theorem trim_drop_step_mono (s s1 : TrimState) (h : trim_drop_step s = .ok s1) :
    s1.ff.length ≤ s.ff.length ∧ s1.succ.length ≤ s.succ.length ∧
      s1.err.length ≤ s.err.length := by
  unfold trim_drop_step at h
  split_ifs at h <;>
    first
      | exact Except.noConfusion h
      | (simp only [Except.ok.injEq] at h; subst h;
         refine ⟨?_, ?_, ?_⟩ <;>
           simp [List.length_drop, List.length_dropLast])

/-- When the error collection is empty, trim_drop_step always succeeds and
keeps it empty. -/
theorem trim_drop_step_err_nil (st : TrimState) (h : st.err = []) :
    ∃ st1, trim_drop_step st = .ok st1 ∧ st1.err = [] := by
  unfold trim_drop_step
  split_ifs with h1 h2 h3
  · exact ⟨_, rfl, h⟩
  · exact ⟨_, rfl, h⟩
  · exact absurd h3 (by simp [h])
  · exact ⟨_, rfl, h⟩

/-- Structural specification of the trimming loop: whenever it returns, the
number of executed rounds is bounded by the fuel, the final context sizes do
not exceed the initial ones, and the returned prompt is one actually built by
the prompt builder. -/
theorem prompt_trim_loop_spec {pi : Type} (tok : pi → Nat) (limit : Nat)
    (build : TrimState → Option String → pi)
    (summarize : TrimState → Nat → Except PyErr (Option String × Nat)) :
    ∀ (fuel : Nat) (st : TrimState) (calls : Nat) (p : pi) (st1 : TrimState)
      (c1 r : Nat),
      prompt_trim_loop tok limit build summarize fuel st calls = .ok (p, st1, c1, r) →
      r ≤ fuel ∧ st1.ff.length ≤ st.ff.length ∧ st1.succ.length ≤ st.succ.length ∧
        st1.err.length ≤ st.err.length ∧ ∃ s c, p = build s c := by
  intro fuel
  induction fuel with
  | zero =>
    intro st calls p st1 c1 r h
    simp only [prompt_trim_loop, Except.ok.injEq, Prod.mk.injEq] at h
    obtain ⟨hp, hst, _, hr⟩ := h
    subst hp; subst hst; subst hr
    exact ⟨le_refl _, le_refl _, le_refl _, le_refl _, st, none, rfl⟩
  | succ fuel ih =>
    intro st calls p st1 c1 r h
    rw [prompt_trim_loop] at h
    cases hsum : summarize st calls with
    | error e =>
      simp only [hsum] at h
      exact Except.noConfusion h
    | ok pr =>
      obtain ⟨critics, calls1⟩ := pr
      simp only [hsum] at h
      by_cases htok : tok (build st critics) < limit
      · rw [if_pos htok] at h
        simp only [Except.ok.injEq, Prod.mk.injEq] at h
        obtain ⟨hp, hst, _, hr⟩ := h
        subst hp; subst hst; subst hr
        exact ⟨by omega, le_refl _, le_refl _, le_refl _, st, critics, rfl⟩
      · rw [if_neg htok] at h
        cases hdrop : trim_drop_step st with
        | error e =>
          simp only [hdrop] at h
          exact Except.noConfusion h
        | ok stM =>
          simp only [hdrop] at h
          have hmono := trim_drop_step_mono st stM hdrop
          cases fuel with
          | zero =>
            simp only [Except.ok.injEq, Prod.mk.injEq] at h
            obtain ⟨hp, hst, _, hr⟩ := h
            subst hp; subst hst; subst hr
            exact ⟨by omega, hmono.1, hmono.2.1, hmono.2.2, st, critics, rfl⟩
          | succ f =>
            cases hrec : prompt_trim_loop tok limit build summarize (f + 1) stM calls1 with
            | error e =>
              simp only [hrec] at h
              exact Except.noConfusion h
            | ok q =>
              obtain ⟨p2, st2, calls2, r2⟩ := q
              simp only [hrec, Except.ok.injEq, Prod.mk.injEq] at h
              obtain ⟨hp, hst, _, hr⟩ := h
              subst hp; subst hst; subst hr
              obtain ⟨hb, hff, hs, he, hexp⟩ := ih stM calls1 p2 st2 calls2 r2 hrec
              exact ⟨by omega, le_trans hff hmono.1, le_trans hs hmono.2.1,
                le_trans he hmono.2.2, hexp⟩

/-- With a non-V2 knowledge object the error-summary guard is false and no
chat call is made. -/
theorem summarize_step_false (be : Backend) (cfg : Config) (scen : Scenario)
    (target_task : FactorTask) (st : TrimState) (calls : Nat) :
    summarize_step be cfg scen false target_task st calls = .ok (none, calls) := rfl

/-- When the error collection starts empty and the summarizer never makes a
call, the trimming loop always succeeds and preserves the call counter. -/
theorem prompt_trim_loop_no_summary {pi : Type} (tok : pi → Nat) (limit : Nat)
    (build : TrimState → Option String → pi)
    (summarize : TrimState → Nat → Except PyErr (Option String × Nat))
    (hsum : ∀ st c, summarize st c = .ok (none, c)) :
    ∀ (fuel : Nat) (st : TrimState) (calls : Nat), st.err = [] →
      ∃ p st1 r, prompt_trim_loop tok limit build summarize fuel st calls
        = .ok (p, st1, calls, r) := by
  intro fuel
  induction fuel with
  | zero =>
    intro st calls _
    exact ⟨_, _, _, rfl⟩
  | succ fuel ih =>
    intro st calls herr
    rw [prompt_trim_loop]
    simp only [hsum st calls]
    by_cases htok : tok (build st none) < limit
    · exact ⟨_, _, _, by rw [if_pos htok]⟩
    · rw [if_neg htok]
      obtain ⟨stM, hdrop, herrM⟩ := trim_drop_step_err_nil st herr
      simp only [hdrop]
      cases fuel with
      | zero => exact ⟨_, _, _, rfl⟩
      | succ f =>
        obtain ⟨p2, st2, r2, hrec⟩ := ih stM calls herrM
        simp only [hrec]
        exact ⟨p2, st2, r2 + 1, rfl⟩

/-- A backend whose chat responses are malformed from the current counter on
exhausts every decode attempt of the parsing strategy, leaving the Python
function to return None after fuel further chat calls. -/
theorem parsing_decode_all_malformed (be : Backend) (factorName : String) :
    ∀ (fuel calls : Nat), (∀ n, calls ≤ n → be.chat n = .malformed) →
      parsing_decode_loop be factorName fuel calls = .ok (none, calls + fuel) := by
  intro fuel
  induction fuel with
  | zero => intro calls _; rfl
  | succ fuel ih =>
    intro calls hm
    rw [parsing_decode_loop, hm calls (le_refl calls)]
    rw [ih (calls + 1) (fun n hn => hm n (by omega))]
    have h2 : calls + 1 + fuel = calls + (fuel + 1) := by omega
    rw [h2]

/-- The same exhaustion on the multi-process strategy hits the for-else clause
and returns the empty string. -/
theorem mp_decode_all_malformed (be : Backend) :
    ∀ (fuel calls : Nat), (∀ n, calls ≤ n → be.chat n = .malformed) →
      mp_decode_loop be fuel calls = .ok (some "", calls + fuel) := by
  intro fuel
  induction fuel with
  | zero => intro calls _; rfl
  | succ fuel ih =>
    intro calls hm
    rw [mp_decode_loop, hm calls (le_refl calls)]
    rw [ih (calls + 1) (fun n hn => hm n (by omega))]
    have h2 : calls + 1 + fuel = calls + (fuel + 1) := by omega
    rw [h2]

/-- Per-slot characterization of assign_code_list_to_evo: slot i of the result
is computed from slot i of the inputs alone. -/
theorem assign_code_list_to_evo_getD (code_list : List (Option String))
    (evo : EvolvingItem) (i : Nat) (hi : i < evo.sub_tasks.length) :
    (assign_code_list_to_evo code_list evo).sub_workspace_list.getD i none =
      match code_list.getD i none with
      | none => evo.sub_workspace_list.getD i none
      | some code => some ((workspace_or_new evo i).inject_code "factor.py" code) := by
  unfold assign_code_list_to_evo workspace_or_new
  simp only [List.getD_eq_getElem?_getD, List.getElem?_map]
  rw [List.getElem?_range hi]
  simp only [Option.map_some']
  cases code_list[i]?.getD none with
  | none => rfl
  | some code => rfl

/-- The length of the workspace list after assignment equals the task count. -/
theorem assign_code_list_to_evo_length (code_list : List (Option String))
    (evo : EvolvingItem) :
    (assign_code_list_to_evo code_list evo).sub_workspace_list.length
      = evo.sub_tasks.length := by
  simp [assign_code_list_to_evo]

/-- Setting at the length of the prefix replaces the head of the suffix. -/
theorem set_append_cons {α : Type} (pre : List α) (x : α) (rest : List α) (v : α) :
    (pre ++ x :: rest).set pre.length v = pre ++ v :: rest := by
  induction pre with
  | nil => rfl
  | cons a l ih => simp [List.set, ih]

/-- The scatter loop of evolve (code_list[target_index] = result[index] driven
by enumerate over range): scattering results over consecutive indices starting
at the length of an already-filled prefix fills the remaining slots in order. -/
theorem scatter_go {α : Type} :
    ∀ (rs : List α) (pre : List (Option α)),
      ((List.range' pre.length rs.length).zip rs).foldl
          (fun acc tr => acc.set tr.1 (some tr.2))
          (pre ++ List.replicate rs.length none)
        = pre ++ rs.map some := by
  intro rs
  induction rs with
  | nil => intro pre; simp
  | cons r rs ih =>
    intro pre
    have hrep : List.replicate (r :: rs).length (none : Option α)
        = none :: List.replicate rs.length none := rfl
    rw [hrep, List.length_cons, List.range'_succ]
    simp only [List.zip_cons_cons, List.foldl_cons]
    rw [set_append_cons]
    have hstep : pre ++ some r :: List.replicate rs.length none
        = (pre ++ [some r]) ++ List.replicate rs.length none := by simp
    have hlen : pre.length + 1 = (pre ++ [some r]).length := by simp
    rw [hstep, hlen, ih (pre ++ [some r])]
    simp

/-- Scattering a full result list over range n from an all-None initial list
yields exactly the results, each wrapped in some. -/
theorem scatter_range {α : Type} (rs : List α) :
    ((List.range rs.length).zip rs).foldl
        (fun acc tr => acc.set tr.1 (some tr.2))
        (List.replicate rs.length none)
      = rs.map some := by
  have h := scatter_go rs []
  simpa [List.range_eq_range'] using h

/-- Looking up a key in an association list built by pairing each index with a
function of itself returns that function of the key. -/
theorem lookup_map_pair {α : Type} (g : Nat → α) :
    ∀ (l : List Nat) (j : Nat), j ∈ l →
      (l.map (fun i => (i, g i))).lookup j = some (g j) := by
  intro l
  induction l with
  | nil => intro j h; cases h
  | cons i l ih =>
    intro j hj
    simp only [List.map_cons, List.lookup]
    by_cases h : j = i
    · subst h
      simp
    · have hmem : j ∈ l := by
        rcases List.mem_cons.mp hj with h1 | h1
        · exact absurd h1 h
        · exact h1
      have hbeq : (j == i) = false := beq_false_of_ne h
      rw [hbeq]
      exact ih j hmem

/-- filterMap collapses to map when the function is total on the list. -/
theorem filterMap_eq_map_of_forall {α β : Type} (f : α → Option β) (g : α → β) :
    ∀ (l : List α), (∀ x ∈ l, f x = some (g x)) → l.filterMap f = l.map g := by
  intro l
  induction l with
  | nil => intro _; rfl
  | cons a l ih =>
    intro h
    rw [List.filterMap_cons, h a (List.mem_cons_self a l), List.map_cons,
      ih (fun x hx => h x (List.mem_cons_of_mem a hx))]

/-- The worker pool wrapper returns the per-index results in submission order
whenever the completion order covers exactly the submitted indices. -/
theorem multiprocessing_wrapper_eq_map {α : Type} [Inhabited α]
    (fs : List (Unit → α)) (order : List Nat)
    (hsub : ∀ i ∈ order, i < fs.length)
    (hmem : ∀ j, j < fs.length → j ∈ order) :
    multiprocessing_wrapper fs order = fs.map (fun f => f ()) := by
  unfold multiprocessing_wrapper
  have hfm : order.filterMap (fun i => (fs[i]?).map (fun f => (i, f ())))
      = order.map (fun i => (i, (fs.getD i default) ())) := by
    apply filterMap_eq_map_of_forall
    intro i hi
    have h1 : i < fs.length := hsub i hi
    cases hgi : fs[i]? with
    | none =>
      rw [List.getElem?_eq_none_iff] at hgi
      omega
    | some v =>
      simp [List.getD, hgi]
  rw [hfm]
  apply List.ext_getElem?
  intro k
  rw [List.getElem?_map, List.getElem?_map]
  by_cases hk : k < fs.length
  · rw [List.getElem?_range hk]
    cases hgk : fs[k]? with
    | none =>
      rw [List.getElem?_eq_none_iff] at hgk
      omega
    | some v =>
      simp only [Option.map_some']
      rw [lookup_map_pair (fun i => (fs.getD i default) ()) order k (hmem k hk)]
      simp [List.getD, hgk]
  · have h1 : (List.range fs.length)[k]? = none := by
      rw [List.getElem?_eq_none_iff]
      simpa using Nat.le_of_not_lt hk
    have h2 : fs[k]? = none := by
      rw [List.getElem?_eq_none_iff]
      exact Nat.le_of_not_lt hk
    rw [h1, h2]
    rfl

/-- C1: for every task whose queried former-failed knowledge is empty
(including when the queried knowledge object is absent),
FactorParsingStrategy.implement_one_task returns exactly the code template
rendered with the task factor_expression and factor_name, and makes zero
chat (oracle) calls — the returned counter is 0. -/
theorem c1_template_fast_path (be : Backend) (cfg : Config) (scen : Scenario)
    (target_task : FactorTask) (queried_knowledge : Option QueriedKnowledge)
    (h : former_failed_of queried_knowledge target_task = []) :
    FactorParsingStrategy.implement_one_task be cfg scen target_task queried_knowledge
      = .ok (some (codeTemplateRender target_task.factorExpression
          target_task.factorName), 0) := by
  cases queried_knowledge with
  | none => rfl
  | some qk =>
    have h1 : (qk.task_to_former_failed_traces target_task.taskInformation).1 = [] := h
    simp [FactorParsingStrategy.implement_one_task, h1]

/-- C1 witness: concrete instantiation of the fast path with a present
knowledge object whose former-failed list is empty. -/
theorem c1_template_fast_path_witness :
    former_failed_of (some c1Knowledge) cexTask = []
    ∧ FactorParsingStrategy.implement_one_task cexBackend cexConfig cexScenario
        cexTask (some c1Knowledge)
      = .ok (some (codeTemplateRender cexTask.factorExpression cexTask.factorName), 0) :=
  ⟨rfl, c1_template_fast_path cexBackend cexConfig cexScenario cexTask
    (some c1Knowledge) rfl⟩

/-- C10: FactorRunningStrategy.implement_one_task renders the template from the
task parameters only — its output is identical for any two knowledge arguments
(including None), and since the definition consumes no Backend it can make no
chat (oracle) call and never consults the knowledge store. -/
theorem c10_running_implement_independent :
    ∀ (target_task : FactorTask) (k1 k2 : Option QueriedKnowledge),
      FactorRunningStrategy.implement_one_task target_task k1
        = FactorRunningStrategy.implement_one_task target_task k2
      ∧ FactorRunningStrategy.implement_one_task target_task k1
        = codeTemplateRender target_task.factorExpression target_task.factorName :=
  fun _ _ _ => ⟨rfl, rfl⟩

/-- C8: when the external runner signals no result (None), the factor_backtest
step raises FactorEmptyError("Factor extraction failed."); FactorEmptyError is
declared in skip_loop_error; and under the loop error policy the outcome is
skip-iteration (abort the current iteration only), not run-abort. -/
theorem c8_backtest_empty_skippable :
    (∀ (α : Type), AlphaAgentLoop.factor_backtest none (none : Option α)
        = .error ⟨.factorEmptyError, "Factor extraction failed."⟩)
    ∧ ErrClass.factorEmptyError ∈ AlphaAgentLoop.skip_loop_error
    ∧ ∀ (α : Type), loop_step_outcome AlphaAgentLoop.skip_loop_error
        (AlphaAgentLoop.factor_backtest none (none : Option α))
      = .skipIteration ⟨.factorEmptyError, "Factor extraction failed."⟩ := by
  refine ⟨fun α => rfl, ?_, fun α => ?_⟩
  · simp [AlphaAgentLoop.skip_loop_error]
  · rfl

/-- C9: with the process-wide stop event set, every decorated pipeline step of
AlphaAgentLoop raises the cancellation error before its body runs: the result
is the stop error for every possible body, so no step body is ever entered
after cancellation has been observed. -/
theorem c9_steps_check_stop_event :
    ∀ (α β : Type) (body : α → Except LoopErr β) (x : α) (runner_result : Option β),
      AlphaAgentLoop.factor_propose (some true) body x = .error stopped_error
      ∧ AlphaAgentLoop.factor_construct (some true) body x = .error stopped_error
      ∧ AlphaAgentLoop.factor_calculate (some true) body x = .error stopped_error
      ∧ AlphaAgentLoop.factor_backtest (some true) runner_result = .error stopped_error
      ∧ AlphaAgentLoop.feedback (some true) body x = .error stopped_error :=
  fun _ _ _ _ _ => ⟨rfl, rfl, rfl, rfl, rfl⟩

/-- C4 (code bug): at a trimming state with one former-failed entry, no
successful entries and a non-empty similar-error dict, an over-budget round
reaches the drop-an-error-entry branch, whose [:-1] slicing of the dict raises
TypeError (unhashable type: slice) instead of dropping the least-similar error
entry — in both strategies, so implement_one_task propagates TypeError. -/
theorem c4_error_drop_raises_type_error :
    FactorParsingStrategy.implement_one_task overBudgetBackend cexConfig cexScenario
        cexTask (some c4Knowledge) = .error .typeError
    ∧ FactorMultiProcessEvolvingStrategy.implement_one_task overBudgetBackend cexConfig
        cexScenario cexTask (some c4Knowledge) = .error .typeError := by
  exact ⟨rfl, rfl⟩

/-- C2 counterexample: with one former-failed trace and a backend whose
responses are always malformed, FactorParsingStrategy.implement_one_task
returns None after its ten decode attempts (ok (none, 10)) — not an explicit
empty artifact such as the empty string. -/
theorem c2_decode_exhaustion_cex :
    FactorParsingStrategy.implement_one_task cexBackend cexConfig cexScenario
        cexTask (some cexKnowledge) = .ok (none, 10)
    ∧ (Except.ok (none, 10) : Except PyErr (Option String × Nat))
        ≠ .ok (some "", 10) := by
  exact ⟨rfl, by simp⟩

/-- C2 corrected: for every task on the oracle-repair path (non-empty
former-failed knowledge, any knowledge variant), whenever the prompt-assembly
phase completes with the chat counter at calls and every response from that
counter on is malformed — so all ten decode attempts fail —
FactorParsingStrategy.implement_one_task returns None: its decode loop has no
fallback and the Python function falls off its end, raising nothing
(downstream assignment treats None as carry-forward), after exactly 10 further
chat calls; FactorMultiProcessEvolvingStrategy.implement_one_task instead
returns the empty string via its for-else fallback. -/
theorem c2_decode_exhaustion_amended (be : Backend) (cfg : Config) (scen : Scenario)
    (target_task : FactorTask) (qk : QueriedKnowledge)
    (hff : (qk.task_to_former_failed_traces target_task.taskInformation).1 ≠ []) :
    (∀ (p : ParsingUserPrompt) (st1 : TrimState) (calls r : Nat),
      prompt_trim_loop
          (be.tokens_parsing ⟨scen.get_scenario_all_desc target_task⟩)
          cfg.chat_token_limit
          (parsing_build_user_prompt target_task
            (qk.task_to_former_failed_traces target_task.taskInformation).2)
          (summarize_step be cfg scen qk.isV2 target_task) 10
          ⟨(qk.task_to_former_failed_traces target_task.taskInformation).1,
            qk.task_to_similar_task_successful_knowledge target_task.taskInformation,
            if qk.isV2 then
              qk.task_to_similar_error_successful_knowledge target_task.taskInformation
            else []⟩
          0 = .ok (p, st1, calls, r) →
      (∀ n, calls ≤ n → be.chat n = .malformed) →
      FactorParsingStrategy.implement_one_task be cfg scen target_task (some qk)
        = .ok (none, calls + 10))
    ∧ ∀ (p : MPUserPrompt) (st1 : TrimState) (calls r : Nat),
      prompt_trim_loop
          (be.tokens_mp ⟨scen.get_scenario_all_desc target_task,
            (qk.task_to_former_failed_traces target_task.taskInformation).1⟩)
          cfg.chat_token_limit
          (mp_build_user_prompt target_task
            (qk.task_to_former_failed_traces target_task.taskInformation).2)
          (summarize_step be cfg scen qk.isV2 target_task) 10
          ⟨(qk.task_to_former_failed_traces target_task.taskInformation).1,
            qk.task_to_similar_task_successful_knowledge target_task.taskInformation,
            if qk.isV2 then
              qk.task_to_similar_error_successful_knowledge target_task.taskInformation
            else []⟩
          0 = .ok (p, st1, calls, r) →
      (∀ n, calls ≤ n → be.chat n = .malformed) →
      FactorMultiProcessEvolvingStrategy.implement_one_task be cfg scen target_task
        (some qk) = .ok (some "", calls + 10) := by
  have hlen : ((qk.task_to_former_failed_traces target_task.taskInformation).1).length
      ≠ 0 := by
    simpa [List.length_eq_zero] using hff
  constructor
  · intro p st1 calls r hloop hm
    simp only [FactorParsingStrategy.implement_one_task, if_neg hlen, hloop]
    exact parsing_decode_all_malformed be target_task.factorName 10 calls hm
  · intro p st1 calls r hloop hm
    simp only [FactorMultiProcessEvolvingStrategy.implement_one_task, hloop]
    exact mp_decode_all_malformed be 10 calls hm

/-- C2 witness: the amended statement at the concrete counterexample input —
prompt assembly breaks in round one with the counter at 0, all responses are
malformed, None (respectively the empty string) comes back after 10 calls. -/
theorem c2_decode_exhaustion_amended_witness :
    FactorParsingStrategy.implement_one_task cexBackend cexConfig cexScenario
        cexTask (some cexKnowledge) = .ok (none, 10)
    ∧ FactorMultiProcessEvolvingStrategy.implement_one_task cexBackend cexConfig
        cexScenario cexTask (some cexKnowledge) = .ok (some "", 10) :=
  ⟨(c2_decode_exhaustion_amended cexBackend cexConfig cexScenario cexTask cexKnowledge
      (by simp [cexKnowledge])).1
    (parsing_build_user_prompt cexTask "latest attempt" ⟨[cexFailedEntry], [], []⟩ none)
    ⟨[cexFailedEntry], [], []⟩ 0 1 rfl (fun _ _ => rfl),
   (c2_decode_exhaustion_amended cexBackend cexConfig cexScenario cexTask cexKnowledge
      (by simp [cexKnowledge])).2
    (mp_build_user_prompt cexTask "latest attempt" ⟨[cexFailedEntry], [], []⟩ none)
    ⟨[cexFailedEntry], [], []⟩ 0 1 rfl (fun _ _ => rfl)⟩

/-- C3 counterexample: an empty-string result is not carried forward — slot 0,
previously None, receives a freshly created workspace holding an empty
factor.py, so the workspace list does change. -/
theorem c3_empty_string_injected_cex :
    (assign_code_list_to_evo [some ""] c3Evo).sub_workspace_list.getD 0 none
      = some ⟨cexTask, [("factor.py", "")]⟩
    ∧ (assign_code_list_to_evo [some ""] c3Evo).sub_workspace_list
      ≠ c3Evo.sub_workspace_list := by
  refine ⟨rfl, ?_⟩
  intro hcontra
  have h0 : (assign_code_list_to_evo [some ""] c3Evo).sub_workspace_list.getD 0 none
      = c3Evo.sub_workspace_list.getD 0 none := by rw [hcontra]
  rw [show (assign_code_list_to_evo [some ""] c3Evo).sub_workspace_list.getD 0 none
      = some ⟨cexTask, [("factor.py", "")]⟩ from rfl] at h0
  simp [c3Evo] at h0

/-- C3 corrected: only a None (null) result is carried forward — slot i is then
exactly the prior slot i; any present result, including the empty string, is
injected as factor.py into the existing workspace or into a freshly created
one.  Handling is per-index: the slot i output is a function of the slot i
inputs alone, so no other slot is modified by the handling of slot i. -/
theorem c3_carry_forward_amended (code_list : List (Option String))
    (evo : EvolvingItem) (i : Nat) (hi : i < evo.sub_tasks.length) :
    (code_list.getD i none = none →
      (assign_code_list_to_evo code_list evo).sub_workspace_list.getD i none
        = evo.sub_workspace_list.getD i none)
    ∧ ∀ code, code_list.getD i none = some code →
      (assign_code_list_to_evo code_list evo).sub_workspace_list.getD i none
        = some ((workspace_or_new evo i).inject_code "factor.py" code) := by
  have h := assign_code_list_to_evo_getD code_list evo i hi
  constructor
  · intro hnone
    rw [h, hnone]
  · intro code hcode
    rw [h, hcode]

/-- C3 witness: a None result leaves the occupied slot 0 untouched. -/
theorem c3_carry_forward_amended_witness :
    0 < c6Evo.sub_tasks.length
    ∧ (assign_code_list_to_evo [none, some "xyz"] c6Evo).sub_workspace_list.getD 0 none
      = c6Evo.sub_workspace_list.getD 0 none :=
  ⟨by decide,
   (c3_carry_forward_amended [none, some "xyz"] c6Evo 0 (by decide)).1 rfl⟩

/-- C5: the parsing-strategy trimming loop runs at most 10 rounds, the final
sizes of the three context collections never exceed the initial sizes, every
inter-round shrink step is non-increasing on each collection, and the returned
user prompt always carries the target task description in
factor_information_str — the task description is never trimmed away. -/
theorem c5_trim_loop_bounded (tok : ParsingUserPrompt → Nat) (limit : Nat)
    (target_task : FactorTask) (latest : String)
    (summarize : TrimState → Nat → Except PyErr (Option String × Nat))
    (st : TrimState) (calls : Nat) (p : ParsingUserPrompt) (st1 : TrimState)
    (c1 r : Nat)
    (h : prompt_trim_loop tok limit (parsing_build_user_prompt target_task latest)
        summarize 10 st calls = .ok (p, st1, c1, r)) :
    r ≤ 10
    ∧ st1.ff.length ≤ st.ff.length ∧ st1.succ.length ≤ st.succ.length
    ∧ st1.err.length ≤ st.err.length
    ∧ (∀ s s1, trim_drop_step s = .ok s1 →
        s1.ff.length ≤ s.ff.length ∧ s1.succ.length ≤ s.succ.length
          ∧ s1.err.length ≤ s.err.length)
    ∧ p.factor_information_str = target_task.taskDescription := by
  obtain ⟨hb, hf, hs, he, s, c, hp⟩ := prompt_trim_loop_spec tok limit
    (parsing_build_user_prompt target_task latest) summarize 10 st calls p st1 c1 r h
  subst hp
  exact ⟨hb, hf, hs, he, trim_drop_step_mono, rfl⟩

/-- C5 witness: a concrete run of the trimming loop that breaks in its first
round, with the bound and the description-preservation conclusions. -/
theorem c5_trim_loop_bounded_witness :
    prompt_trim_loop (fun _ => 0) 1 (parsing_build_user_prompt cexTask "")
        (fun _ c => .ok (none, c)) 10 ⟨[], [], []⟩ 0
      = .ok (c5Prompt, ⟨[], [], []⟩, 0, 1)
    ∧ (1 : Nat) ≤ 10
    ∧ c5Prompt.factor_information_str = cexTask.taskDescription :=
  ⟨rfl,
   (c5_trim_loop_bounded (fun _ => 0) 1 cexTask "" (fun _ c => .ok (none, c))
      ⟨[], [], []⟩ 0 c5Prompt ⟨[], [], []⟩ 0 1 rfl).1,
   (c5_trim_loop_bounded (fun _ => 0) 1 cexTask "" (fun _ c => .ok (none, c))
      ⟨[], [], []⟩ 0 c5Prompt ⟨[], [], []⟩ 0 1 rfl).2.2.2.2.2⟩

/-- Scatter over range n with a result list of length n. -/
theorem scatter_range_of_length {α : Type} (n : Nat) (rs : List α)
    (h : rs.length = n) :
    ((List.range n).zip rs).foldl (fun acc tr => acc.set tr.1 (some tr.2))
        (List.replicate n none)
      = rs.map some := by
  subst h
  exact scatter_range rs

/-- Evolve of the running strategy, with completion order equal to the index
order, is the per-index assignment of the rendered templates. -/
theorem running_evolve_eq (evo : EvolvingItem)
    (queried_knowledge : Option QueriedKnowledge) :
    FactorRunningStrategy.evolve evo queried_knowledge
        (List.range evo.sub_tasks.length)
      = { assign_code_list_to_evo
            (((List.range evo.sub_tasks.length).map (fun target_index =>
              FactorRunningStrategy.implement_one_task
                (evo.sub_tasks.getD target_index default) queried_knowledge)).map some)
            evo
          with corresponding_selection := List.range evo.sub_tasks.length } := by
  simp only [FactorRunningStrategy.evolve]
  rw [multiprocessing_wrapper_eq_map]
  · rw [List.map_map]
    rw [scatter_range_of_length evo.sub_tasks.length _ (by simp)]
    rfl
  · intro i hi
    simp only [List.length_map, List.length_range]
    exact List.mem_range.mp hi
  · intro j hj
    simp only [List.length_map, List.length_range] at hj
    exact List.mem_range.mpr hj

/-- C6: FactorRunningStrategy.evolve selects every task index, renders every
task through implement_one_task, writes each (always non-null) result into the
workspace slot of the same index — creating the workspace only when that slot
is None — and returns the item with corresponding_selection equal to the full
processed index list. -/
theorem c6_running_evolve_assigns (evo : EvolvingItem)
    (queried_knowledge : Option QueriedKnowledge)
    (hlen : evo.sub_workspace_list.length = evo.sub_tasks.length) :
    (FactorRunningStrategy.evolve evo queried_knowledge
        (List.range evo.sub_tasks.length)).corresponding_selection
      = List.range evo.sub_tasks.length
    ∧ ∀ i, i < evo.sub_tasks.length →
      (FactorRunningStrategy.evolve evo queried_knowledge
          (List.range evo.sub_tasks.length)).sub_workspace_list.getD i none
        = some ((workspace_or_new evo i).inject_code "factor.py"
            (codeTemplateRender (evo.sub_tasks.getD i default).factorExpression
              (evo.sub_tasks.getD i default).factorName)) := by
  have hev := running_evolve_eq evo queried_knowledge
  constructor
  · rw [hev]
  · intro i hi
    rw [hev]
    show (assign_code_list_to_evo
        (((List.range evo.sub_tasks.length).map (fun target_index =>
          FactorRunningStrategy.implement_one_task
            (evo.sub_tasks.getD target_index default) queried_knowledge)).map some)
        evo).sub_workspace_list.getD i none = _
    rw [assign_code_list_to_evo_getD _ _ i hi]
    have hcl : ((((List.range evo.sub_tasks.length).map (fun target_index =>
        FactorRunningStrategy.implement_one_task
          (evo.sub_tasks.getD target_index default) queried_knowledge)).map
            some)).getD i none
        = some (FactorRunningStrategy.implement_one_task
            (evo.sub_tasks.getD i default) queried_knowledge) := by
      simp [List.getD_eq_getElem?_getD, List.getElem?_map, List.getElem?_range hi]
    rw [hcl]
    rfl

/-- C6 witness: two tasks, one empty and one occupied slot; slot 1 receives
the rendered template injected into the existing workspace, and the selection
is the full index range. -/
theorem c6_running_evolve_assigns_witness :
    c6Evo.sub_workspace_list.length = c6Evo.sub_tasks.length
    ∧ (FactorRunningStrategy.evolve c6Evo none
        (List.range c6Evo.sub_tasks.length)).corresponding_selection
      = List.range c6Evo.sub_tasks.length
    ∧ (FactorRunningStrategy.evolve c6Evo none
        (List.range c6Evo.sub_tasks.length)).sub_workspace_list.getD 1 none
      = some ((workspace_or_new c6Evo 1).inject_code "factor.py"
          (codeTemplateRender (c6Evo.sub_tasks.getD 1 default).factorExpression
            (c6Evo.sub_tasks.getD 1 default).factorName)) :=
  ⟨by decide,
   (c6_running_evolve_assigns c6Evo none (by decide)).1,
   (c6_running_evolve_assigns c6Evo none (by decide)).2 1 (by decide)⟩

/-- C7: the result of evolve does not depend on worker completion order — for
every permutation of the index set, the evolving item is the same as with the
index-order completion. -/
theorem c7_evolve_completion_order_independent (evo : EvolvingItem)
    (queried_knowledge : Option QueriedKnowledge) (order : List Nat)
    (h : order.Perm (List.range evo.sub_tasks.length)) :
    FactorRunningStrategy.evolve evo queried_knowledge order
      = FactorRunningStrategy.evolve evo queried_knowledge
          (List.range evo.sub_tasks.length) := by
  simp only [FactorRunningStrategy.evolve]
  have hlenfs : ((List.range evo.sub_tasks.length).map (fun target_index => fun _ : Unit =>
      FactorRunningStrategy.implement_one_task (evo.sub_tasks.getD target_index default)
        queried_knowledge)).length = evo.sub_tasks.length := by simp
  have h1 : ∀ i ∈ order, i < ((List.range evo.sub_tasks.length).map
      (fun target_index => fun _ : Unit =>
        FactorRunningStrategy.implement_one_task (evo.sub_tasks.getD target_index default)
          queried_knowledge)).length := by
    intro i hi
    rw [hlenfs]
    exact List.mem_range.mp (h.mem_iff.mp hi)
  have h2 : ∀ j, j < ((List.range evo.sub_tasks.length).map
      (fun target_index => fun _ : Unit =>
        FactorRunningStrategy.implement_one_task (evo.sub_tasks.getD target_index default)
          queried_knowledge)).length → j ∈ order := by
    intro j hj
    rw [hlenfs] at hj
    exact h.mem_iff.mpr (List.mem_range.mpr hj)
  have h3 : ∀ i ∈ List.range evo.sub_tasks.length,
      i < ((List.range evo.sub_tasks.length).map
      (fun target_index => fun _ : Unit =>
        FactorRunningStrategy.implement_one_task (evo.sub_tasks.getD target_index default)
          queried_knowledge)).length := by
    intro i hi
    rw [hlenfs]
    exact List.mem_range.mp hi
  have h4 : ∀ j, j < ((List.range evo.sub_tasks.length).map
      (fun target_index => fun _ : Unit =>
        FactorRunningStrategy.implement_one_task (evo.sub_tasks.getD target_index default)
          queried_knowledge)).length → j ∈ List.range evo.sub_tasks.length := by
    intro j hj
    rw [hlenfs] at hj
    exact List.mem_range.mpr hj
  rw [multiprocessing_wrapper_eq_map _ order h1 h2,
    multiprocessing_wrapper_eq_map _ (List.range evo.sub_tasks.length) h3 h4]

/-- C7 witness: completion order [1, 0] yields the same item as index order. -/
theorem c7_evolve_completion_order_independent_witness :
    ([1, 0] : List Nat).Perm (List.range c6Evo.sub_tasks.length)
    ∧ FactorRunningStrategy.evolve c6Evo none [1, 0]
      = FactorRunningStrategy.evolve c6Evo none (List.range c6Evo.sub_tasks.length) :=
  ⟨by decide, c7_evolve_completion_order_independent c6Evo none [1, 0] (by decide)⟩

/-- C8 witness: concrete instantiation at the String result type. -/
theorem c8_backtest_empty_skippable_witness :
    AlphaAgentLoop.factor_backtest none (none : Option String)
      = .error ⟨.factorEmptyError, "Factor extraction failed."⟩
    ∧ loop_step_outcome AlphaAgentLoop.skip_loop_error
        (AlphaAgentLoop.factor_backtest none (none : Option String))
      = .skipIteration ⟨.factorEmptyError, "Factor extraction failed."⟩ :=
  ⟨c8_backtest_empty_skippable.1 String, c8_backtest_empty_skippable.2.2 String⟩

/-- C9 witness: concrete step body and input with the stop event set. -/
theorem c9_steps_check_stop_event_witness :
    AlphaAgentLoop.factor_propose (some true) (fun _ : Unit => Except.ok true) ()
      = .error stopped_error :=
  (c9_steps_check_stop_event Unit Bool (fun _ => Except.ok true) () none).1

/-- C10 witness: concrete task with and without a knowledge object. -/
theorem c10_running_implement_independent_witness :
    FactorRunningStrategy.implement_one_task cexTask (some cexKnowledge)
      = FactorRunningStrategy.implement_one_task cexTask none
    ∧ FactorRunningStrategy.implement_one_task cexTask (some cexKnowledge)
      = codeTemplateRender cexTask.factorExpression cexTask.factorName :=
  c10_running_implement_independent cexTask (some cexKnowledge) none

end AlphaAgent
